import Mathlib

/-!
Verification of the fall-detector sketch (Optimized Loop Fall Detector).

The embedding models the decision engine of the sketch: the three-state
fall-classification machine (`STATE_MONITORING` / `STATE_JUDGING` /
`STATE_ALARM`), the five-slot motion-history window, and the long-press
button-cancel logic, exactly as written in the `loop()` body of the sketch,
together with the sensor-read helper `readAccelSqMagnitude`.

Modelling conventions:
- `unsigned long` (32-bit on the AVR target) time values are `Nat`, with the
  wrapping C subtraction `later - earlier` modelled by `wsub` (mod 2^32).
- `int` (16-bit on the AVR target) is modelled exactly where its width
  matters: the assignment `int secondIndex = timeSinceImpact / 1000;`
  truncates the 32-bit quotient to a signed 16-bit value, modelled by
  `toInt16`.
- `float` magnitudes are modelled as rationals; all threshold comparisons in
  the sketch are order comparisons, exact on the values involved.
- The array write `motionHistory[secondIndex] = true` is in bounds for
  indices 0..4. The sketch only guards `secondIndex < 5`, so a negative
  truncated index would write out of bounds (undefined behaviour in C++);
  the model records such a write in the ghost flag `oobWrite` and leaves the
  five modelled slots unchanged (the rogue write lands far below the array).
-/

namespace FallDetector

/-- 2^32, the modulus of `unsigned long` arithmetic on the AVR target. -/
def U32 : Nat := 4294967296

/-- Wrapping unsigned subtraction `a - b` on 32-bit `unsigned long`,
as used for `now - impactTime` and `now - btnPressStart` in the sketch. -/
def wsub (a b : Nat) : Nat := (a % U32 + (U32 - b % U32)) % U32

/-- Conversion of an unsigned value to a signed 16-bit `int` (AVR), the
implementation-defined truncation performed by
`int secondIndex = timeSinceImpact / 1000;`. -/
def toInt16 (n : Nat) : Int :=
  if n % 65536 < 32768 then ((n % 65536 : Nat) : Int)
  else ((n % 65536 : Nat) : Int) - 65536

/-- `IMPACT_THRESHOLD_G = 2.0f` (trigger threshold). -/
def IMPACT_THRESHOLD_G : ℚ := 2

/-- `STABILITY_THRESHOLD_G = 1.3f` (motion threshold). -/
def STABILITY_THRESHOLD_G : ℚ := 13 / 10

/-- `JUDGE_WINDOW_MS = 5000UL` (stability check window). -/
def JUDGE_WINDOW_MS : Nat := 5000

/-- `LONG_PRESS_MS = 2000UL` (button hold time to reset). -/
def LONG_PRESS_MS : Nat := 2000

/-- `REQUIRED_ACTIVE_SECONDS = 3`. -/
def REQUIRED_ACTIVE_SECONDS : Nat := 3

/-- `IMPACT_SQ = IMPACT_THRESHOLD_G * IMPACT_THRESHOLD_G` (= 4.0). -/
def IMPACT_SQ : ℚ := IMPACT_THRESHOLD_G * IMPACT_THRESHOLD_G

/-- `STABILITY_SQ = STABILITY_THRESHOLD_G * STABILITY_THRESHOLD_G` (= 1.69). -/
def STABILITY_SQ : ℚ := STABILITY_THRESHOLD_G * STABILITY_THRESHOLD_G

/-- The `SystemState` enum of the sketch. -/
inductive SystemState where
  | monitoring
  | judging
  | alarm
deriving DecidableEq, Repr

/-- The mutable globals of the sketch that the decision engine reads and
writes: `currentState`, `impactTime`, the button-debounce variables and the
five-slot `motionHistory` array. `oobWrite` is a ghost flag recording that
the sketch performed an out-of-bounds array write (undefined behaviour);
it is never read by the modelled code. -/
structure SysState where
  currentState : SystemState
  impactTime : Nat
  btnWasLow : Bool
  btnPressStart : Nat
  btnHeld : Bool
  motionHistory : List Bool
  oobWrite : Bool
deriving DecidableEq, Repr

/-- The initial values of the globals. -/
def initState : SysState :=
  { currentState := .monitoring
    impactTime := 0
    btnWasLow := false
    btnPressStart := 0
    btnHeld := false
    motionHistory := List.replicate 5 false
    oobWrite := false }

/-- Section 2 of `loop()`: the fall-detection state machine
(`switch (currentState)`), fed the clock reading `now` and the squared
magnitude `aMagSq` of the current sample. -/
def classifierStep (s : SysState) (now : Nat) (aMagSq : ℚ) : SysState :=
  match s.currentState with
  | .monitoring =>
      if aMagSq > IMPACT_SQ then
        { s with currentState := .judging
                 impactTime := now
                 motionHistory := List.replicate 5 false }
      else s
  | .judging =>
      let timeSinceImpact := wsub now s.impactTime
      let secondIndex : Int := toInt16 (timeSinceImpact / 1000)
      let s1 :=
        if secondIndex < 5 ∧ aMagSq > STABILITY_SQ then
          if 0 ≤ secondIndex then
            { s with motionHistory := s.motionHistory.set secondIndex.toNat true }
          else
            { s with oobWrite := true }
        else s
      if timeSinceImpact ≥ JUDGE_WINDOW_MS then
        if s1.motionHistory.count true ≥ REQUIRED_ACTIVE_SECONDS then
          { s1 with currentState := .monitoring }
        else
          { s1 with currentState := .alarm }
      else s1
  | .alarm => s

/-- Section 3 of `loop()`: the long-press button logic, fed the clock reading
`now` and `btnPressed = (digitalRead(PIN_BUTTON) == LOW)`. -/
def buttonStep (s : SysState) (now : Nat) (btnPressed : Bool) : SysState :=
  if s.currentState = .alarm then
    if btnPressed then
      if !s.btnWasLow then
        { s with btnWasLow := true
                 btnPressStart := now
                 btnHeld := true }
      else if wsub now s.btnPressStart ≥ LONG_PRESS_MS then
        { s with currentState := .monitoring
                 btnWasLow := false
                 btnHeld := true }
      else
        { s with btnHeld := true }
    else
      { s with btnWasLow := false, btnHeld := false }
  else
    { s with btnWasLow := false, btnHeld := btnPressed }

/-- One iteration's observable inputs: the `millis()` reading taken at the
top of `loop()`, the squared magnitude returned by the sensor read, and the
active-low button level. -/
structure Input where
  now : Nat
  aMagSq : ℚ
  btnPressed : Bool

/-- One full iteration of the decision engine inside `loop()`: the
classifier switch followed by the button logic (the hardware-output and
display sections do not write any of the modelled state). -/
def loopStep (s : SysState) (i : Input) : SysState :=
  buttonStep (classifierStep s i.now i.aMagSq) i.now i.btnPressed

/-- Iterating `loop()` over a finite input trace. -/
def run (s : SysState) (is : List Input) : SysState :=
  is.foldl loopStep s

/-- `readAccelSqMagnitude()`: given the number of bytes the I2C read made
available and the six data bytes, returns the squared magnitude in g², or
`0.0f` when fewer than 6 bytes are available. Each axis is the signed
16-bit combination `(hi << 8) | lo` scaled by `SCALE = 16384.0f`. -/
def readAccelSqMagnitude (available : Nat) (bytes : List Nat) : ℚ :=
  if available < 6 then 0
  else
    let ax_raw := toInt16 (bytes.getD 0 0 * 256 + bytes.getD 1 0)
    let ay_raw := toInt16 (bytes.getD 2 0 * 256 + bytes.getD 3 0)
    let az_raw := toInt16 (bytes.getD 4 0 * 256 + bytes.getD 5 0)
    let ax : ℚ := (ax_raw : ℚ) / 16384
    let ay : ℚ := (ay_raw : ℚ) / 16384
    let az : ℚ := (az_raw : ℚ) / 16384
    ax * ax + ay * ay + az * az

/-- Modelled from the spec (section 4.3 ButtonDebouncer), for comparison
with the sketch's button handling: the debouncer records the press edge,
returns the held duration while pressed, and resets on release. The sketch
has no such free-standing component. -/
structure SpecDebouncer where
  isPressed : Bool
  pressStartTime : Nat
deriving DecidableEq, Repr

/-- Modelled from the spec (section 4.3 ButtonDebouncer):
`update(isPressedNow, nowMs) -> heldDurationMs`, alongside the new
debouncer state. -/
def specButtonUpdate (d : SpecDebouncer) (pressed : Bool) (now : Nat) :
    SpecDebouncer × Nat :=
  if pressed then
    if d.isPressed then (d, wsub now d.pressStartTime)
    else ({ isPressed := true, pressStartTime := now }, 0)
  else ({ isPressed := false, pressStartTime := 0 }, 0)

/-! ### Helper lemmas -/

theorem stability_lt_impact : STABILITY_SQ < IMPACT_SQ := by
  norm_num [STABILITY_SQ, STABILITY_THRESHOLD_G, IMPACT_SQ, IMPACT_THRESHOLD_G]

theorem toInt16_of_lt (n : Nat) (h : n < 32768) : toInt16 n = (n : Int) := by
  have h1 : n % 65536 = n := Nat.mod_eq_of_lt (by omega)
  simp [toInt16, h1, h]

theorem wsub_wrap (t e : Nat) (_ht : t < U32) (he : e < U32) :
    wsub ((t + e) % U32) t = e := by
  simp only [wsub, U32] at *
  omega

theorem classifierStep_monitoring_of_le (s : SysState) (now : Nat) (a : ℚ)
    (h : s.currentState = .monitoring) (ha : a ≤ IMPACT_SQ) :
    classifierStep s now a = s := by
  simp [classifierStep, h, not_lt.mpr ha]

theorem classifierStep_alarm_eq (s : SysState) (now : Nat) (a : ℚ)
    (h : s.currentState = .alarm) : classifierStep s now a = s := by
  simp [classifierStep, h]

theorem buttonStep_nonalarm (s : SysState) (now : Nat) (b : Bool)
    (h : s.currentState ≠ .alarm) :
    buttonStep s now b = { s with btnWasLow := false, btnHeld := b } := by
  simp [buttonStep, h]

theorem buttonStep_frame (s : SysState) (now : Nat) (b : Bool) :
    (buttonStep s now b).impactTime = s.impactTime ∧
    (buttonStep s now b).motionHistory = s.motionHistory ∧
    (buttonStep s now b).oobWrite = s.oobWrite := by
  unfold buttonStep
  split_ifs <;> simp

theorem buttonStep_judging_iff (s : SysState) (now : Nat) (b : Bool) :
    (buttonStep s now b).currentState = .judging ↔ s.currentState = .judging := by
  unfold buttonStep
  split_ifs <;> simp_all

theorem classifierStep_btn_frame (s : SysState) (now : Nat) (a : ℚ) :
    (classifierStep s now a).btnWasLow = s.btnWasLow ∧
    (classifierStep s now a).btnPressStart = s.btnPressStart ∧
    (classifierStep s now a).btnHeld = s.btnHeld := by
  rcases s with ⟨cs, it, bw, bp, bh, mh, ow⟩
  cases cs <;> simp [classifierStep] <;> split_ifs <;> simp

theorem buttonStep_cancel_iff (s : SysState) (now : Nat)
    (h : s.currentState = .alarm) (hw : s.btnWasLow = true) :
    ((buttonStep s now true).currentState = .monitoring ↔
      LONG_PRESS_MS ≤ wsub now s.btnPressStart) := by
  simp only [buttonStep, h, hw, if_pos, Bool.not_true, Bool.false_eq_true,
    if_false, if_true, ge_iff_le]
  split_ifs with hl
  · simp [hl]
  · simp [h, hl]

theorem buttonStep_btnWasLow_reset (s : SysState) (now : Nat) (b : Bool)
    (h : (buttonStep s now b).currentState ≠ .alarm) :
    (buttonStep s now b).btnWasLow = false := by
  unfold buttonStep at *
  split_ifs at * <;> simp_all

/-! ### Claim theorems -/

/-- C2: in `STATE_MONITORING`, a sample with squared magnitude strictly above
`IMPACT_SQ` (4.0) transitions to `STATE_JUDGING` in that single step,
records `impactTime = now`, and resets all five `motionHistory` buckets to
false; a sample not exceeding the threshold leaves every field unchanged. -/
theorem monitoring_impact_entry (s : SysState) (now : Nat) (a : ℚ)
    (h : s.currentState = .monitoring) :
    (IMPACT_SQ < a → classifierStep s now a =
      { s with currentState := .judging
               impactTime := now
               motionHistory := List.replicate 5 false }) ∧
    (a ≤ IMPACT_SQ → classifierStep s now a = s) := by
  constructor
  · intro ha
    simp [classifierStep, h, ha]
  · intro ha
    exact classifierStep_monitoring_of_le s now a h ha

/-- Witness for C2 at concrete inputs: squared magnitude 5 triggers the
transition at timestamp 100; squared magnitude 4 leaves the state alone. -/
theorem monitoring_impact_entry_witness :
    classifierStep initState 100 5 =
      { initState with currentState := .judging
                       impactTime := 100
                       motionHistory := List.replicate 5 false } ∧
    classifierStep initState 100 4 = initState :=
  ⟨(monitoring_impact_entry initState 100 5 rfl).1
      (by norm_num [IMPACT_SQ, IMPACT_THRESHOLD_G]),
   (monitoring_impact_entry initState 100 4 rfl).2
      (by norm_num [IMPACT_SQ, IMPACT_THRESHOLD_G])⟩

/-- C3: in `STATE_ALARM`, with the press edge already observed
(`btnWasLow = true`, `btnPressStart` the edge time), a pressed sample
cancels the alarm (state returns to `STATE_MONITORING`) exactly when the
hold duration `now - btnPressStart` has reached `LONG_PRESS_MS` (2000 ms);
in particular a hold of 1999 ms does not cancel. -/
theorem alarm_long_press_cancel (s : SysState) (now : Nat) (a : ℚ)
    (h : s.currentState = .alarm) (hw : s.btnWasLow = true) :
    ((loopStep s ⟨now, a, true⟩).currentState = .monitoring ↔
      LONG_PRESS_MS ≤ wsub now s.btnPressStart) := by
  have hc : classifierStep s now a = s := classifierStep_alarm_eq s now a h
  simp only [loopStep, hc]
  exact buttonStep_cancel_iff s now h hw

/-- Witness for C3: with the press edge recorded at t = 6000, the sample at
t = 8000 (2000 ms hold) cancels and the sample at t = 7999 (1999 ms hold)
does not. -/
theorem alarm_long_press_cancel_witness :
    (loopStep { initState with currentState := .alarm, btnWasLow := true,
                               btnPressStart := 6000 } ⟨8000, 0, true⟩).currentState
      = .monitoring ∧
    ¬ (loopStep { initState with currentState := .alarm, btnWasLow := true,
                                 btnPressStart := 6000 } ⟨7999, 0, true⟩).currentState
      = .monitoring :=
  ⟨(alarm_long_press_cancel _ 8000 0 rfl rfl).mpr (by decide),
   fun hc => absurd ((alarm_long_press_cancel _ 7999 0 rfl rfl).mp hc) (by decide)⟩

/-- C4: for any finite input trace whose squared magnitudes are all at most
`IMPACT_SQ` (4.0), a machine started in `STATE_MONITORING` is still in
`STATE_MONITORING` after running the whole trace (it never enters
`STATE_JUDGING` or `STATE_ALARM`). -/
theorem monitoring_safety (s : SysState) (is : List Input)
    (h : s.currentState = .monitoring)
    (hall : ∀ i ∈ is, i.aMagSq ≤ IMPACT_SQ) :
    (run s is).currentState = .monitoring := by
  induction is generalizing s with
  | nil => simpa [run] using h
  | cons i t ih =>
    have hc : classifierStep s i.now i.aMagSq = s :=
      classifierStep_monitoring_of_le s i.now i.aMagSq h (hall i (by simp))
    have hna : s.currentState ≠ .alarm := by simp [h]
    have h1 : (loopStep s i).currentState = .monitoring := by
      simp [loopStep, hc, buttonStep_nonalarm s i.now i.btnPressed hna, h]
    have hrun : run s (i :: t) = run (loopStep s i) t := by
      simp [run]
    rw [hrun]
    exact ih (loopStep s i) h1 (fun j hj => hall j (by simp [hj]))

/-- Witness for C4 at a concrete trace of three sub-threshold samples. -/
theorem monitoring_safety_witness :
    (run initState [⟨0, 4, false⟩, ⟨1000, 0, true⟩, ⟨2000, 1, false⟩]).currentState
      = .monitoring :=
  monitoring_safety initState _ rfl (by
    intro i hi
    fin_cases hi <;> norm_num [IMPACT_SQ, IMPACT_THRESHOLD_G])

/-- C1: in `STATE_JUDGING`, a sample whose elapsed time since `impactTime`
has reached `JUDGE_WINDOW_MS` (5000 ms) finalizes the window: the new state
is `STATE_MONITORING` when the count of true buckets reaches
`REQUIRED_ACTIVE_SECONDS` (3) and `STATE_ALARM` otherwise. Whenever the
elapsed time is below 32768000 ms (every realistic finalization; beyond it
the 16-bit `secondIndex` truncates), the window contents are untouched by
the finalizing sample, so the counted buckets are exactly the recorded
ones. -/
theorem judging_finalize (s : SysState) (now : Nat) (a : ℚ)
    (h : s.currentState = .judging)
    (h5 : JUDGE_WINDOW_MS ≤ wsub now s.impactTime) :
    ((classifierStep s now a).currentState =
      (if REQUIRED_ACTIVE_SECONDS ≤ (classifierStep s now a).motionHistory.count true
       then SystemState.monitoring else SystemState.alarm)) ∧
    (wsub now s.impactTime < 32768000 →
      (classifierStep s now a).motionHistory = s.motionHistory ∧
      (classifierStep s now a).currentState =
        (if REQUIRED_ACTIVE_SECONDS ≤ s.motionHistory.count true
         then SystemState.monitoring else SystemState.alarm)) := by
  have h5' : (5000 : Nat) ≤ wsub now s.impactTime := h5
  constructor
  · simp only [classifierStep, h]
    split_ifs <;> simp_all
  · intro hlt
    have hq : wsub now s.impactTime / 1000 < 32768 := by omega
    have h5q : 5 ≤ wsub now s.impactTime / 1000 := by omega
    have hnotlt : ¬ toInt16 (wsub now s.impactTime / 1000) < 5 := by
      rw [toInt16_of_lt _ hq]
      exact not_lt.mpr (by exact_mod_cast h5q)
    simp only [classifierStep, h, hnotlt, false_and, if_false]
    split_ifs <;> simp_all

/-- A judging state with buckets 0, 1, 2 marked (impact recorded at t = 0). -/
def judgingThree : SysState :=
  { initState with currentState := .judging, impactTime := 0, motionHistory := [true, true, true, false, false] }

/-- A judging state with only bucket 1 marked (impact recorded at t = 0). -/
def judgingOne : SysState :=
  { initState with currentState := .judging, impactTime := 0, motionHistory := [false, true, false, false, false] }

/-- A judging state with no bucket marked (impact recorded at t = 0). -/
def judgingBlank : SysState :=
  { initState with currentState := .judging, impactTime := 0 }

/-- An alarm state with no bucket marked (impact recorded at t = 0). -/
def alarmBlank : SysState :=
  { initState with currentState := .alarm, impactTime := 0 }

/-- Witness for C1: with buckets 0,1,2 marked the finalizing sample at
t = 5000 yields `STATE_MONITORING`; with one bucket marked it yields
`STATE_ALARM`. -/
theorem judging_finalize_witness :
    (classifierStep judgingThree 5000 0).currentState = .monitoring ∧
    (classifierStep judgingOne 5000 0).currentState = .alarm := by
  constructor
  · have hthm := (judging_finalize judgingThree 5000 0 rfl (by decide)).2 (by decide)
    rw [hthm.2]
    decide
  · have hthm := (judging_finalize judgingOne 5000 0 rfl (by decide)).2 (by decide)
    rw [hthm.2]
    decide

/-- C5 (code bug): the sketch guards the bucket write only with
`secondIndex < 5`, but `secondIndex` is a 16-bit `int` receiving the 32-bit
quotient `timeSinceImpact / 1000`. A motion sample 32768000 ms after the
recorded impact gives quotient 32768, which truncates to `secondIndex =
-32768`; the guard `secondIndex < 5` passes and
`motionHistory[secondIndex] = true` writes far outside the 5-slot window
(recorded here by the ghost flag `oobWrite`). -/
theorem motion_window_oob_write :
    wsub 32768000 0 / 1000 = 32768 ∧
    toInt16 (wsub 32768000 0 / 1000) = -32768 ∧
    initState.oobWrite = false ∧
    (classifierStep judgingBlank 32768000 2).oobWrite = true := by
  refine ⟨by decide, by decide, rfl, ?_⟩
  norm_num [classifierStep, judgingBlank, initState, STABILITY_SQ,
    STABILITY_THRESHOLD_G, wsub, U32, toInt16, JUDGE_WINDOW_MS,
    REQUIRED_ACTIVE_SECONDS, List.replicate, List.count, List.countP,
    List.countP.go]

/-- C6: a sample above the impact threshold arriving while the state is
already `STATE_JUDGING` or `STATE_ALARM` leaves `impactTime` unchanged and
never resets or restarts the motion window: in `STATE_JUDGING` it acts only
as a motion sample (marking at most the bucket the sketch computes for it),
and in `STATE_ALARM` the window is untouched. -/
theorem high_sample_no_restart (s : SysState) (now : Nat) (a : ℚ) (b : Bool)
    (ha : IMPACT_SQ < a) :
    (s.currentState = .judging →
      (loopStep s ⟨now, a, b⟩).impactTime = s.impactTime ∧
      (loopStep s ⟨now, a, b⟩).motionHistory =
        (if toInt16 (wsub now s.impactTime / 1000) < 5 ∧
            0 ≤ toInt16 (wsub now s.impactTime / 1000)
         then s.motionHistory.set (toInt16 (wsub now s.impactTime / 1000)).toNat true
         else s.motionHistory)) ∧
    (s.currentState = .alarm →
      (loopStep s ⟨now, a, b⟩).impactTime = s.impactTime ∧
      (loopStep s ⟨now, a, b⟩).motionHistory = s.motionHistory) := by
  have hst : STABILITY_SQ < a := lt_trans stability_lt_impact ha
  obtain ⟨hbi, hbm, hbo⟩ := buttonStep_frame (classifierStep s now a) now b
  constructor
  · intro h
    constructor
    · show (buttonStep (classifierStep s now a) now b).impactTime = s.impactTime
      rw [hbi]
      simp only [classifierStep, h]
      split_ifs <;> simp
    · show (buttonStep (classifierStep s now a) now b).motionHistory = _
      rw [hbm]
      simp only [classifierStep, h, hst, and_true]
      split_ifs <;> simp_all
  · intro h
    have hc : classifierStep s now a = s := classifierStep_alarm_eq s now a h
    constructor
    · show (buttonStep (classifierStep s now a) now b).impactTime = s.impactTime
      rw [hbi, hc]
    · show (buttonStep (classifierStep s now a) now b).motionHistory = s.motionHistory
      rw [hbm, hc]

/-- Witness for C6: a second high-G sample (squared magnitude 9) at t = 1500
during judging marks bucket 1 only; the same sample during alarm changes
nothing. -/
theorem high_sample_no_restart_witness :
    ((loopStep judgingBlank ⟨1500, 9, false⟩).impactTime = 0 ∧
      (loopStep judgingBlank ⟨1500, 9, false⟩).motionHistory
        = [false, true, false, false, false]) ∧
    ((loopStep alarmBlank ⟨1500, 9, false⟩).impactTime = 0 ∧
      (loopStep alarmBlank ⟨1500, 9, false⟩).motionHistory
        = List.replicate 5 false) := by
  have himp : IMPACT_SQ < (9 : ℚ) := by norm_num [IMPACT_SQ, IMPACT_THRESHOLD_G]
  constructor
  · obtain ⟨h1, h2⟩ := (high_sample_no_restart judgingBlank 1500 9 false himp).1 rfl
    refine ⟨h1, ?_⟩
    rw [h2]
    decide
  · exact (high_sample_no_restart alarmBlank 1500 9 false himp).2 rfl

/-- C7: a sensor read with fewer than 6 bytes available yields the sample
value 0.0, which the state machine treats as a legitimate no-motion sample:
in `STATE_MONITORING` the classifier output is unchanged (only the UI
button-held flag is refreshed), and in `STATE_JUDGING` no bucket is marked
and no out-of-window write occurs. All modelled operations are total. -/
theorem sensor_failure_no_motion (available : Nat) (bytes : List Nat)
    (s : SysState) (now : Nat) (b : Bool) (hav : available < 6) :
    readAccelSqMagnitude available bytes = 0 ∧
    (s.currentState = .monitoring →
      loopStep s ⟨now, readAccelSqMagnitude available bytes, b⟩ =
        { s with btnWasLow := false, btnHeld := b }) ∧
    (s.currentState = .judging →
      (loopStep s ⟨now, readAccelSqMagnitude available bytes, b⟩).motionHistory
        = s.motionHistory ∧
      (loopStep s ⟨now, readAccelSqMagnitude available bytes, b⟩).oobWrite
        = s.oobWrite) := by
  have h0 : readAccelSqMagnitude available bytes = 0 := by
    simp [readAccelSqMagnitude, hav]
  refine ⟨h0, ?_, ?_⟩
  · intro h
    have hc : classifierStep s now (readAccelSqMagnitude available bytes) = s :=
      classifierStep_monitoring_of_le s now _ h
        (by rw [h0]; norm_num [IMPACT_SQ, IMPACT_THRESHOLD_G])
    have hna : s.currentState ≠ .alarm := by simp [h]
    show buttonStep (classifierStep s now (readAccelSqMagnitude available bytes)) now b = _
    rw [hc, buttonStep_nonalarm s now b hna]
  · intro h
    obtain ⟨hbi, hbm, hbo⟩ :=
      buttonStep_frame (classifierStep s now (readAccelSqMagnitude available bytes)) now b
    have hnm : ¬ STABILITY_SQ < readAccelSqMagnitude available bytes := by
      rw [h0]; norm_num [STABILITY_SQ, STABILITY_THRESHOLD_G]
    constructor
    · show (buttonStep (classifierStep s now _) now b).motionHistory = s.motionHistory
      rw [hbm]
      simp only [classifierStep, h, hnm, and_false, if_false]
      split_ifs <;> simp_all
    · show (buttonStep (classifierStep s now _) now b).oobWrite = s.oobWrite
      rw [hbo]
      simp only [classifierStep, h, hnm, and_false, if_false]
      split_ifs <;> simp_all

/-- Witness for C7: a 3-byte read yields sample value 0, leaving the
monitoring state exactly as it was. -/
theorem sensor_failure_no_motion_witness :
    readAccelSqMagnitude 3 [] = 0 ∧
    loopStep initState ⟨0, readAccelSqMagnitude 3 [], false⟩ = initState := by
  obtain ⟨h0, hm, _⟩ := sensor_failure_no_motion 3 [] initState 0 false (by omega)
  exact ⟨h0, hm rfl⟩

/-- C8: both elapsed-time computations are wraparound-safe. If the clock
reading equals `impactTime + e` reduced mod 2^32 (the clock wrapped between
the impact and now), the judging window still times out exactly when
`e ≥ JUDGE_WINDOW_MS`; if it equals `btnPressStart + e` mod 2^32, the
long-press cancel still fires exactly when `e ≥ LONG_PRESS_MS`. -/
theorem wraparound_elapsed_correct :
    (∀ (s : SysState) (e : Nat) (a : ℚ) (b : Bool),
      s.currentState = .judging → s.impactTime < U32 → e < U32 →
      ((loopStep s ⟨(s.impactTime + e) % U32, a, b⟩).currentState = .judging ↔
        e < JUDGE_WINDOW_MS)) ∧
    (∀ (s : SysState) (e : Nat) (a : ℚ),
      s.currentState = .alarm → s.btnWasLow = true →
      s.btnPressStart < U32 → e < U32 →
      ((loopStep s ⟨(s.btnPressStart + e) % U32, a, true⟩).currentState
          = .monitoring ↔ LONG_PRESS_MS ≤ e)) := by
  constructor
  · intro s e a b h ht he
    have hww : wsub ((s.impactTime + e) % U32) s.impactTime = e :=
      wsub_wrap _ _ ht he
    show (buttonStep (classifierStep s ((s.impactTime + e) % U32) a) _ b).currentState
        = .judging ↔ _
    rw [buttonStep_judging_iff]
    simp only [classifierStep, h, hww]
    split_ifs <;> simp_all [JUDGE_WINDOW_MS, h]
  · intro s e a h hw hb he
    have hww : wsub ((s.btnPressStart + e) % U32) s.btnPressStart = e :=
      wsub_wrap _ _ hb he
    have hc : classifierStep s ((s.btnPressStart + e) % U32) a = s :=
      classifierStep_alarm_eq s _ a h
    show (buttonStep (classifierStep s ((s.btnPressStart + e) % U32) a) _ true).currentState
        = .monitoring ↔ _
    rw [hc, buttonStep_cancel_iff s _ h hw, hww]

/-- A judging state whose impact was recorded 1000 ms before the 32-bit
clock wraps. -/
def judgingLate : SysState :=
  { initState with currentState := .judging, impactTime := 4294966296 }

/-- An alarm state whose press edge was recorded 1000 ms before the 32-bit
clock wraps. -/
def alarmLate : SysState :=
  { initState with currentState := .alarm, btnWasLow := true, btnPressStart := 4294966296 }

/-- Witness for C8: with the impact 1000 ms before clock wrap, the sample at
wrapped clock reading 5000 (true elapsed 6000 ms) has left judging; with the
press edge 1000 ms before wrap, the pressed sample at wrapped reading 1000
(true hold 2000 ms) cancels the alarm. -/
theorem wraparound_elapsed_correct_witness :
    ¬ (loopStep judgingLate ⟨5000, 0, false⟩).currentState = .judging ∧
    (loopStep alarmLate ⟨1000, 0, true⟩).currentState = .monitoring := by
  constructor
  · intro hc
    have hiff := wraparound_elapsed_correct.1 judgingLate 6000 0 false rfl
      (by decide) (by decide)
    rw [show (judgingLate.impactTime + 6000) % U32 = 5000 from by decide] at hiff
    exact absurd (hiff.mp hc) (by decide)
  · have hiff := wraparound_elapsed_correct.2 alarmLate 2000 0 rfl rfl
      (by decide) (by decide)
    rw [show (alarmLate.btnPressStart + 2000) % U32 = 1000 from by decide] at hiff
    exact hiff.mpr (by decide)

/-- C9 counterexample: outside `STATE_ALARM` the sketch does not compute any
hold duration from the press edge. After two pressed iterations at t = 100
and t = 200 in `STATE_MONITORING`, the spec's ButtonDebouncer reports a held
duration of 100 ms with the edge recorded at 100, while the sketch has
tracked nothing: `btnWasLow` is still false, `btnPressStart` still 0, and
the only duration expression the sketch ever forms, `now - btnPressStart`,
would give 200, not 100. -/
theorem nonalarm_hold_not_tracked :
    (specButtonUpdate (specButtonUpdate ⟨false, 0⟩ true 100).1 true 200).2 = 100 ∧
    (run initState [⟨100, 0, true⟩, ⟨200, 0, true⟩]).btnWasLow = false ∧
    (run initState [⟨100, 0, true⟩, ⟨200, 0, true⟩]).btnPressStart = 0 ∧
    wsub 200 (run initState [⟨100, 0, true⟩, ⟨200, 0, true⟩]).btnPressStart = 200 := by
  have hspec : (specButtonUpdate (specButtonUpdate ⟨false, 0⟩ true 100).1 true 200).2
      = 100 := by decide
  have e1 : classifierStep initState 100 0 = initState :=
    classifierStep_monitoring_of_le initState 100 0 rfl
      (by norm_num [IMPACT_SQ, IMPACT_THRESHOLD_G])
  have s1eq : loopStep initState ⟨100, 0, true⟩ =
      { initState with btnWasLow := false, btnHeld := true } := by
    show buttonStep (classifierStep initState 100 0) 100 true = _
    rw [e1, buttonStep_nonalarm initState 100 true (by decide)]
  have e2 : classifierStep { initState with btnWasLow := false, btnHeld := true } 200 0
      = { initState with btnWasLow := false, btnHeld := true } :=
    classifierStep_monitoring_of_le _ 200 0 rfl
      (by norm_num [IMPACT_SQ, IMPACT_THRESHOLD_G])
  have s2eq : run initState [⟨100, 0, true⟩, ⟨200, 0, true⟩] =
      { initState with btnWasLow := false, btnHeld := true } := by
    show loopStep (loopStep initState ⟨100, 0, true⟩) ⟨200, 0, true⟩ = _
    rw [s1eq]
    show buttonStep (classifierStep _ 200 0) 200 true = _
    rw [e2, buttonStep_nonalarm _ 200 true (by decide)]
  refine ⟨hspec, ?_, ?_, ?_⟩ <;> rw [s2eq] <;> decide

/-- C9 (amended): while the post-classifier state is not `STATE_ALARM`, the
button pass records no press edge and computes no hold duration — it only
refreshes the instantaneous UI flag `btnHeld` with the raw button level —
and button input never changes the state. -/
theorem nonalarm_button_no_transition (s : SysState) (now : Nat) (a : ℚ) (b : Bool)
    (h : (classifierStep s now a).currentState ≠ .alarm) :
    (loopStep s ⟨now, a, b⟩).btnWasLow = false ∧
    (loopStep s ⟨now, a, b⟩).btnHeld = b ∧
    (loopStep s ⟨now, a, b⟩).btnPressStart = s.btnPressStart ∧
    (loopStep s ⟨now, a, b⟩).currentState = (classifierStep s now a).currentState := by
  have hb := buttonStep_nonalarm (classifierStep s now a) now b h
  have hbtn := (classifierStep_btn_frame s now a).2.1
  show (buttonStep (classifierStep s now a) now b).btnWasLow = false ∧
    (buttonStep (classifierStep s now a) now b).btnHeld = b ∧
    (buttonStep (classifierStep s now a) now b).btnPressStart = s.btnPressStart ∧
    (buttonStep (classifierStep s now a) now b).currentState
      = (classifierStep s now a).currentState
  rw [hb]
  simp [hbtn]

/-- Witness for C9's amended statement: a pressed sample at t = 100 in
monitoring leaves no press edge recorded, sets only the held flag, and
triggers no transition. -/
theorem nonalarm_button_no_transition_witness :
    (loopStep initState ⟨100, 0, true⟩).btnWasLow = false ∧
    (loopStep initState ⟨100, 0, true⟩).btnHeld = true ∧
    (loopStep initState ⟨100, 0, true⟩).btnPressStart = 0 ∧
    (loopStep initState ⟨100, 0, true⟩).currentState
      = (classifierStep initState 100 0).currentState :=
  nonalarm_button_no_transition initState 100 0 true (by
    rw [classifierStep_monitoring_of_le initState 100 0 rfl
      (by norm_num [IMPACT_SQ, IMPACT_THRESHOLD_G])]
    decide)

/-- C10: every iteration that leaves the machine outside `STATE_ALARM`
resets `btnWasLow`, so when an iteration's classifier pass enters
`STATE_ALARM` with the button already held, the press edge is re-detected in
that same iteration: `btnPressStart` is set to that iteration's clock
reading, no cancel fires yet, and a later pressed iteration cancels exactly
when a full `LONG_PRESS_MS` has elapsed since alarm entry — however long the
button was held beforehand. -/
theorem alarm_entry_press_edge :
    (∀ (s : SysState) (i : Input),
      (loopStep s i).currentState ≠ .alarm → (loopStep s i).btnWasLow = false) ∧
    (∀ (s : SysState) (now : Nat) (a : ℚ),
      s.btnWasLow = false → (classifierStep s now a).currentState = .alarm →
      ((loopStep s ⟨now, a, true⟩).btnWasLow = true ∧
       (loopStep s ⟨now, a, true⟩).btnPressStart = now ∧
       (loopStep s ⟨now, a, true⟩).currentState = .alarm ∧
       ∀ (now2 : Nat) (a2 : ℚ),
         ((loopStep (loopStep s ⟨now, a, true⟩) ⟨now2, a2, true⟩).currentState
            = .monitoring ↔ LONG_PRESS_MS ≤ wsub now2 now))) := by
  constructor
  · intro s i hna
    exact buttonStep_btnWasLow_reset (classifierStep s i.now i.aMagSq) i.now
      i.btnPressed hna
  · intro s now a hw ha
    have hbw : (classifierStep s now a).btnWasLow = false := by
      rw [(classifierStep_btn_frame s now a).1, hw]
    have hstep : loopStep s ⟨now, a, true⟩ =
        { classifierStep s now a with
            btnWasLow := true, btnPressStart := now, btnHeld := true } := by
      show buttonStep (classifierStep s now a) now true = _
      simp [buttonStep, ha, hbw]
    have h3 : (loopStep s ⟨now, a, true⟩).currentState = .alarm := by
      rw [hstep]
      exact ha
    refine ⟨by rw [hstep], by rw [hstep], h3, ?_⟩
    intro now2 a2
    have hw2 : (loopStep s ⟨now, a, true⟩).btnWasLow = true := by rw [hstep]
    have hc2 := classifierStep_alarm_eq (loopStep s ⟨now, a, true⟩) now2 a2 h3
    have hiff := buttonStep_cancel_iff (loopStep s ⟨now, a, true⟩) now2 h3 hw2
    have hps : (loopStep s ⟨now, a, true⟩).btnPressStart = now := by rw [hstep]
    rw [hps] at hiff
    show (buttonStep (classifierStep (loopStep s ⟨now, a, true⟩) now2 a2)
        now2 true).currentState = .monitoring ↔ _
    rw [hc2]
    exact hiff

/-- Witness for C10: with the button already held, the judging state with no
marked buckets finalizes to alarm at t = 5000 and the press edge is recorded
at 5000; the pressed sample at t = 7000 (2000 ms after entry) cancels, the
one at t = 6999 does not. Also: an iteration that stays in monitoring resets
`btnWasLow`. -/
theorem alarm_entry_press_edge_witness :
    (loopStep initState ⟨0, 0, true⟩).btnWasLow = false ∧
    (loopStep judgingBlank ⟨5000, 0, true⟩).btnWasLow = true ∧
    (loopStep judgingBlank ⟨5000, 0, true⟩).btnPressStart = 5000 ∧
    (loopStep judgingBlank ⟨5000, 0, true⟩).currentState = .alarm ∧
    (loopStep (loopStep judgingBlank ⟨5000, 0, true⟩) ⟨7000, 0, true⟩).currentState
      = .monitoring ∧
    ¬ (loopStep (loopStep judgingBlank ⟨5000, 0, true⟩) ⟨6999, 0, true⟩).currentState
      = .monitoring := by
  have hmon := alarm_entry_press_edge.1 initState ⟨0, 0, true⟩ (by
    norm_num [loopStep, classifierStep, buttonStep, initState, IMPACT_SQ,
      IMPACT_THRESHOLD_G]
    decide)
  obtain ⟨h1, h2, h3, h4⟩ := alarm_entry_press_edge.2 judgingBlank 5000 0 rfl (by
    norm_num [classifierStep, judgingBlank, initState, STABILITY_SQ,
      STABILITY_THRESHOLD_G, wsub, U32, toInt16, JUDGE_WINDOW_MS,
      REQUIRED_ACTIVE_SECONDS, List.replicate, List.count, List.countP,
      List.countP.go])
  exact ⟨hmon, h1, h2, h3, (h4 7000 0).mpr (by decide),
    fun hc => absurd ((h4 6999 0).mp hc) (by decide)⟩

end FallDetector
